import Mathlib

/-!
Verification of the RISC-V VTYPE codec from
`llvm/lib/TargetParser/RISCVTargetParser.cpp` (namespace `RISCVVType`).

The codec's own functions (`encodeVTYPE`, `encodeXSfmmVType`, `decodeVLMUL`,
`printVType`, `getSEWLMULRatio`, `getSameRatioLMUL`) are embedded directly
from the source file.  Helper declarations that live in the header
`RISCVTargetParser.h` (the `VLMUL` enumeration, `isValidSEW`, `encodeSEW`,
the VTYPE field extractors, `isValidLMUL`, `encodeLMUL`, `Log2_32`) are not
part of the provided sources; they are modelled from the specification's
description of the bit layout and the legal LMUL/SEW sets.

All machine integers involved are small C++ `unsigned` values far below
2^32, so they are embedded as `Nat`; C++ unsigned division is `Nat`
division.  The `llvm_unreachable` branch of `decodeVLMUL` and the two
divisions whose divisor can be zero inside `getSameRatioLMUL` (undefined
behaviour in C++) are embedded as an explicit `none` ("crash") result,
distinct from the `some none` that models a returned `std::nullopt`.
-/

/-- Modelled from the spec: the LMUL enumeration from the target parser
header.  Eight 3-bit codes: 0,1,2,3 are the whole multipliers 1,2,4,8;
5,6,7 are the fractional multipliers 1/8,1/4,1/2 (code = 8 - log2 of the
denominator); code 4 is reserved/invalid. -/
inductive VLMUL where
  | LMUL_1
  | LMUL_2
  | LMUL_4
  | LMUL_8
  | LMUL_RESERVED
  | LMUL_F8
  | LMUL_F4
  | LMUL_F2
deriving DecidableEq, Fintype, Repr

/-- The 3-bit code of an LMUL value (the C++ `static_cast<unsigned>`). -/
def vlmulCode : VLMUL → Nat
  | .LMUL_1 => 0
  | .LMUL_2 => 1
  | .LMUL_4 => 2
  | .LMUL_8 => 3
  | .LMUL_RESERVED => 4
  | .LMUL_F8 => 5
  | .LMUL_F4 => 6
  | .LMUL_F2 => 7

/-- The LMUL value carrying a given 3-bit code (inverse of `vlmulCode`;
any out-of-range number maps to the reserved code). -/
def vlmulOfCode : Nat → VLMUL
  | 0 => .LMUL_1
  | 1 => .LMUL_2
  | 2 => .LMUL_4
  | 3 => .LMUL_8
  | 5 => .LMUL_F8
  | 6 => .LMUL_F4
  | 7 => .LMUL_F2
  | _ => .LMUL_RESERVED

/-- Modelled from the spec: `isValidSEW` from the target parser header —
a standard element width is a power of two between 8 and 64. -/
def isValidSEW (sew : Nat) : Bool :=
  (sew == 8) || (sew == 16) || (sew == 32) || (sew == 64)

/-- Fuel-driven floor base-2 logarithm, structurally recursive so that it
evaluates inside the kernel; with fuel at least `n` it agrees with
`Nat.log2 n`. -/
def log2Fuel : Nat → Nat → Nat
  | 0, _ => 0
  | fuel + 1, n => if 2 ≤ n then log2Fuel fuel (n / 2) + 1 else 0

/-- Floor base-2 logarithm (0 at 0), used wherever the source or the spec
says `log2`. -/
def log2 (n : Nat) : Nat :=
  log2Fuel n n

/-- Modelled from the spec: `encodeSEW` from the target parser header —
the 3-bit SEW field is `log2(sew/8)` (0 for 8, 1 for 16, 2 for 32,
3 for 64). -/
def encodeSEW (sew : Nat) : Nat :=
  log2 (sew / 8)

/-- Modelled from the spec: `getSEW` from the target parser header —
reads the SEW field at bits 5:3 of a VTYPE word and returns the width
`8 << field`. -/
def getSEW (vtype : Nat) : Nat :=
  1 <<< (((vtype >>> 3) &&& 0x7) + 3)

/-- Modelled from the spec: `getVLMUL` from the target parser header —
reads the LMUL code at bits 2:0 of a VTYPE word. -/
def getVLMUL (vtype : Nat) : VLMUL :=
  vlmulOfCode (vtype &&& 0x7)

/-- Modelled from the spec: `isTailAgnostic` from the target parser
header — bit 6 of a VTYPE word. -/
def isTailAgnostic (vtype : Nat) : Bool :=
  (vtype &&& 0x40) != 0

/-- Modelled from the spec: `isMaskAgnostic` from the target parser
header — bit 7 of a VTYPE word. -/
def isMaskAgnostic (vtype : Nat) : Bool :=
  (vtype &&& 0x80) != 0

/-- Modelled from the spec: `isValidLMUL` from the target parser header —
the legal multipliers are {1,2,4,8} and the legal fractional
denominators are {2,4,8}. -/
def isValidLMUL (lmul : Nat) (fractional : Bool) : Bool :=
  if fractional then (lmul == 2) || (lmul == 4) || (lmul == 8)
  else (lmul == 1) || (lmul == 2) || (lmul == 4) || (lmul == 8)

/-- Modelled from the spec: `encodeLMUL` from the target parser header —
the code of a legal (multiplier, fractional) pair: `log2(lmul)` for a
whole multiplier, `8 - log2(denominator)` for a fractional one. -/
def encodeLMUL (lmul : Nat) (fractional : Bool) : VLMUL :=
  vlmulOfCode (if fractional then 8 - log2 lmul else log2 lmul)

/-- Modelled from the spec: `Log2_32` from the LLVM support library —
base-2 logarithm of a 32-bit value, used by `encodeXSfmmVType` on widen
values in {1,2,4}. -/
def Log2_32 (n : Nat) : Nat :=
  log2 n

/-- `RISCVVType::encodeVTYPE` (RISCVTargetParser.cpp:160-172).  Packs
the SEW field at bits 5:3, the LMUL code at bits 2:0, the tail-agnostic
flag at bit 6 and the mask-agnostic flag at bit 7.  The C++ assertion
`isValidSEW(SEW)` is a precondition carried by the theorems below. -/
def encodeVTYPE (vlmul : VLMUL) (sew : Nat) (tailAgnostic maskAgnostic : Bool) : Nat :=
  let vlmulBits := vlmulCode vlmul
  let vsewBits := encodeSEW sew
  let vtypeI := (vsewBits <<< 3) ||| (vlmulBits &&& 0x7)
  let vtypeI := if tailAgnostic then vtypeI ||| 0x40 else vtypeI
  if maskAgnostic then vtypeI ||| 0x80 else vtypeI

/-- `RISCVVType::encodeXSfmmVType` (RISCVTargetParser.cpp:174-181).
Packs the SEW field at bits 5:3, the alternate-format flag at bit 8 and
`Log2_32(widen) + 1` at bits 10:9. -/
def encodeXSfmmVType (sew widen : Nat) (altFmt : Bool) : Nat :=
  let vsewBits := encodeSEW sew
  let twiden := Log2_32 widen + 1
  (vsewBits <<< 3) ||| ((if altFmt then 1 else 0) <<< 8) ||| (twiden <<< 9)

/-- `RISCVVType::decodeVLMUL` (RISCVTargetParser.cpp:183-197).  The
whole codes 0..3 decode to `(1 << code, false)`, the fractional codes
5..7 to `(1 << (8 - code), true)`; the `llvm_unreachable` default branch
(reserved code 4) is embedded as `none`. -/
def decodeVLMUL (vlmul : VLMUL) : Option (Nat × Bool) :=
  match vlmul with
  | .LMUL_RESERVED => none
  | .LMUL_1 | .LMUL_2 | .LMUL_4 | .LMUL_8 =>
      some (1 <<< vlmulCode vlmul, false)
  | .LMUL_F2 | .LMUL_F4 | .LMUL_F8 =>
      some (1 <<< (8 - vlmulCode vlmul), true)

/-- `RISCVVType::printVType` (RISCVTargetParser.cpp:199-222), collected
into a string instead of a `raw_ostream`.  `none` models the
`llvm_unreachable` reached through `decodeVLMUL` on the reserved LMUL
code. -/
def printVType (vtype : Nat) : Option String :=
  let sew := getSEW vtype
  match decodeVLMUL (getVLMUL vtype) with
  | none => none
  | some (lmul, fractional) =>
    let s := "e" ++ toString sew
    let s := if fractional then s ++ ", mf" else s ++ ", m"
    let s := s ++ toString lmul
    let s := if isTailAgnostic vtype then s ++ ", ta" else s ++ ", tu"
    let s := if isMaskAgnostic vtype then s ++ ", ma" else s ++ ", mu"
    some s

/-- The intermediate of `RISCVVType::getSEWLMULRatio`
(RISCVTargetParser.cpp:230): the LMUL as a fixed-point value with 3
fractional bits, `fractional ? 8 / lmul : lmul * 8`. -/
def lmulFixedPoint (vlmul : VLMUL) : Option Nat :=
  (decodeVLMUL vlmul).map fun p => if p.2 then 8 / p.1 else p.1 * 8

/-- `RISCVVType::getSEWLMULRatio` (RISCVTargetParser.cpp:224-234):
`(sew * 8) / lmulFixedPoint`.  `none` models the `llvm_unreachable`
reached through `decodeVLMUL` on the reserved LMUL code; the C++
assertion `SEW >= 8` is a precondition carried by the theorems below. -/
def getSEWLMULRatio (sew : Nat) (vlmul : VLMUL) : Option Nat :=
  (lmulFixedPoint vlmul).map fun f => (sew * 8) / f

/-- `RISCVVType::getSameRatioLMUL` (RISCVTargetParser.cpp:236-244).
The outer `Option` layer models a crash: `none` is either the
`llvm_unreachable` on a reserved input LMUL or the C++ division by zero
`8 / EMULFixedPoint` that the source performs when
`EMULFixedPoint = (EEW * 8) / Ratio` is zero (i.e. `EEW * 8 < Ratio`).
`some none` is a returned `std::nullopt`; `some (some l)` is a returned
LMUL. -/
def getSameRatioLMUL (sew : Nat) (vlmul : VLMUL) (eew : Nat) : Option (Option VLMUL) :=
  match getSEWLMULRatio sew vlmul with
  | none => none
  | some ratio =>
    let emulFixedPoint := (eew * 8) / ratio
    if emulFixedPoint == 0 then none
    else
      let fractional := emulFixedPoint < 8
      let emul := if fractional then 8 / emulFixedPoint else emulFixedPoint / 8
      if isValidLMUL emul fractional then some (some (encodeLMUL emul fractional))
      else some none

/-- A valid SEW is one of 8, 16, 32, 64. -/
theorem isValidSEW_elim (sew : Nat) (h : isValidSEW sew = true) :
    sew = 8 ∨ sew = 16 ∨ sew = 32 ∨ sew = 64 := by
  simpa [isValidSEW, or_assoc] using h

/-- C1: for every valid SEW in {8,16,32,64}, every one of the 8 LMUL codes
(the reserved code included) and all 4 flag combinations, the word produced
by `encodeVTYPE` decodes back to exactly the input tuple: the LMUL field
gives back the input LMUL (so `decodeVLMUL` of it agrees with `decodeVLMUL`
of the input), the SEW field gives back the input SEW, and the two flag
bits give back the two input flags. -/
theorem encode_decode_roundtrip (v : VLMUL) (s : Nat) (ta ma : Bool)
    (hs : isValidSEW s = true) :
    getVLMUL (encodeVTYPE v s ta ma) = v ∧
    decodeVLMUL (getVLMUL (encodeVTYPE v s ta ma)) = decodeVLMUL v ∧
    getSEW (encodeVTYPE v s ta ma) = s ∧
    isTailAgnostic (encodeVTYPE v s ta ma) = ta ∧
    isMaskAgnostic (encodeVTYPE v s ta ma) = ma := by
  rcases isValidSEW_elim s hs with rfl | rfl | rfl | rfl <;>
    revert v ta ma <;> decide

/-- Witness for C1 at the concrete input (LMUL_F4, 16, true, false). -/
theorem encode_decode_roundtrip_witness :
    getVLMUL (encodeVTYPE .LMUL_F4 16 true false) = .LMUL_F4 ∧
    decodeVLMUL (getVLMUL (encodeVTYPE .LMUL_F4 16 true false)) =
      decodeVLMUL .LMUL_F4 ∧
    getSEW (encodeVTYPE .LMUL_F4 16 true false) = 16 ∧
    isTailAgnostic (encodeVTYPE .LMUL_F4 16 true false) = true ∧
    isMaskAgnostic (encodeVTYPE .LMUL_F4 16 true false) = false :=
  encode_decode_roundtrip .LMUL_F4 16 true false (by decide)

/-- C2: for every valid SEW, every LMUL code and both flags, `encodeVTYPE`
equals `(log2(sew/8) << 3) | (code & 0x7)` with bit 6 set iff tail-agnostic
and bit 7 set iff mask-agnostic, and the result is below 256. -/
theorem encodeVTYPE_bit_layout (v : VLMUL) (s : Nat) (ta ma : Bool)
    (hs : isValidSEW s = true) :
    encodeVTYPE v s ta ma =
      ((log2 (s / 8) <<< 3) ||| (vlmulCode v &&& 0x7) |||
        (if ta then 0x40 else 0) ||| (if ma then 0x80 else 0)) ∧
    (encodeVTYPE v s ta ma).testBit 6 = ta ∧
    (encodeVTYPE v s ta ma).testBit 7 = ma ∧
    encodeVTYPE v s ta ma < 256 := by
  rcases isValidSEW_elim s hs with rfl | rfl | rfl | rfl <;>
    revert v ta ma <;> decide

/-- Witness for C2 at the concrete input (LMUL_8, 64, true, false). -/
theorem encodeVTYPE_bit_layout_witness :
    encodeVTYPE .LMUL_8 64 true false =
      ((log2 (64 / 8) <<< 3) ||| (vlmulCode .LMUL_8 &&& 0x7) |||
        (if true then 0x40 else 0) ||| (if false then 0x80 else 0)) ∧
    (encodeVTYPE .LMUL_8 64 true false).testBit 6 = true ∧
    (encodeVTYPE .LMUL_8 64 true false).testBit 7 = false ∧
    encodeVTYPE .LMUL_8 64 true false < 256 :=
  encodeVTYPE_bit_layout .LMUL_8 64 true false (by decide)

/-- C3 counterexample: the claimed byte values 0x02 and 0xC2 are wrong.
With the SEW field at bits 5:3, SEW 32 encodes as 2 in the field, so the
word for (LMUL_1, 32) carries 2 << 3 = 0x10, not 0x02. -/
theorem encodeVTYPE_spec_values_refuted :
    encodeVTYPE .LMUL_1 32 false false ≠ 0x02 ∧
    encodeVTYPE .LMUL_1 32 true true ≠ 0xC2 := by decide

/-- C3 amended: `encodeVTYPE(LMUL_1, 32, false, false)` returns 0x10, and
`encodeVTYPE(LMUL_1, 32, true, true)` returns 0xD0. -/
theorem encodeVTYPE_concrete_values :
    encodeVTYPE .LMUL_1 32 false false = 0x10 ∧
    encodeVTYPE .LMUL_1 32 true true = 0xD0 := by decide

/-- C4 counterexample: at SEW = 64, LMUL = 1/8, EEW = 8 every legal LMUL
fails to preserve the ratio 512, yet `getSameRatioLMUL` does not return
the "no value" answer (`some none` here): it reaches the division by zero
`8 / EMULFixedPoint` (the crash result `none` of the embedding), refuting
"it never crashes". -/
theorem getSameRatioLMUL_nullopt_refuted :
    isValidSEW 64 = true ∧ isValidSEW 8 = true ∧
    (∀ l : VLMUL, getSEWLMULRatio 8 l ≠ getSEWLMULRatio 64 .LMUL_F8) ∧
    getSameRatioLMUL 64 .LMUL_F8 8 ≠ some none ∧
    getSameRatioLMUL 64 .LMUL_F8 8 = none := by decide

/-- C4 amended: for every valid SEW, every valid LMUL and every EEW in
{8,16,32,64} on which `getSameRatioLMUL` does not reach its division by
zero (the crash result `none`), if no legal LMUL preserves the SEW/LMUL
ratio at width EEW then `getSameRatioLMUL` returns the explicit "no
value" result — it never returns a wrong LMUL. -/
theorem getSameRatioLMUL_no_legal_nullopt (s e : Nat) (v : VLMUL)
    (hs : isValidSEW s = true) (he : isValidSEW e = true)
    (hnc : getSameRatioLMUL s v e ≠ none)
    (hno : ∀ l : VLMUL, getSEWLMULRatio e l ≠ getSEWLMULRatio s v) :
    getSameRatioLMUL s v e = some none := by
  rcases isValidSEW_elim s hs with rfl | rfl | rfl | rfl <;>
    rcases isValidSEW_elim e he with rfl | rfl | rfl | rfl <;>
    revert v <;> decide

/-- Witness for the amended C4 at (SEW 8, LMUL_8, EEW 64): the ratio is 1,
no legal LMUL reaches ratio 1 at width 64, and the function returns the
explicit "no value" result. -/
theorem getSameRatioLMUL_no_legal_nullopt_witness :
    getSameRatioLMUL 8 .LMUL_8 64 = some none :=
  getSameRatioLMUL_no_legal_nullopt 8 64 .LMUL_8 (by decide) (by decide)
    (by decide) (by decide)

/-- C5: at SEW = 64, LMUL = 1/8 (ratio 512) and EEW = 8 the intermediate
`EMULFixedPoint = (EEW * 8) / Ratio` is zero and the source then divides
`8 / EMULFixedPoint`: the division-by-zero branch of `getSameRatioLMUL`
(the guarded `none` of the embedding) is reachable. -/
theorem getSameRatioLMUL_div_by_zero_reachable :
    isValidSEW 64 = true ∧
    decodeVLMUL .LMUL_F8 = some (8, true) ∧
    getSEWLMULRatio 64 .LMUL_F8 = some 512 ∧
    (8 * 8) / 512 = 0 ∧
    getSameRatioLMUL 64 .LMUL_F8 8 = none := by decide

/-- C6: the SEW/LMUL ratio is invariant under scaling both SEW and the
LMUL value (taken in eighths fixed point) by the same positive factor k;
in particular the ratio of (16, LMUL_1) equals the ratio of (32, LMUL_2). -/
theorem getSEWLMULRatio_scale_invariant (s k : Nat) (v v' : VLMUL) (f : Nat)
    (hk : 0 < k) (hf : lmulFixedPoint v = some f)
    (hf' : lmulFixedPoint v' = some (k * f)) :
    getSEWLMULRatio (s * k) v' = getSEWLMULRatio s v ∧
    getSEWLMULRatio 16 .LMUL_1 = getSEWLMULRatio 32 .LMUL_2 := by
  refine ⟨?_, by decide⟩
  simp only [getSEWLMULRatio, hf, hf', Option.map_some']
  rw [show s * k * 8 = k * (s * 8) by ring, Nat.mul_div_mul_left (s * 8) f hk]

/-- Witness for C6 at SEW 16, k = 2, LMUL_1 scaled to LMUL_2. -/
theorem getSEWLMULRatio_scale_invariant_witness :
    getSEWLMULRatio (16 * 2) .LMUL_2 = getSEWLMULRatio 16 .LMUL_1 ∧
    getSEWLMULRatio 16 .LMUL_1 = getSEWLMULRatio 32 .LMUL_2 :=
  getSEWLMULRatio_scale_invariant 16 2 .LMUL_1 .LMUL_2 8 (by decide)
    (by decide) (by decide)

/-- C7 counterexample: at SEW = 16, LMUL_1, EEW = 24 (an EEW ≥ 8 as the
claim demands) `getSameRatioLMUL` returns LMUL_1, but the ratio of
(24, LMUL_1) is 24 while the ratio of (16, LMUL_1) is 16 — the returned
LMUL does not preserve the ratio. -/
theorem getSameRatioLMUL_ratio_preserved_refuted :
    8 ≤ 24 ∧ isValidSEW 16 = true ∧
    getSameRatioLMUL 16 .LMUL_1 24 = some (some .LMUL_1) ∧
    getSEWLMULRatio 24 .LMUL_1 = some 24 ∧
    getSEWLMULRatio 16 .LMUL_1 = some 16 ∧
    getSEWLMULRatio 24 .LMUL_1 ≠ getSEWLMULRatio 16 .LMUL_1 := by decide

/-- C7 amended: for valid SEW, any LMUL and EEW restricted to the valid
element widths {8,16,32,64}, whenever `getSameRatioLMUL` returns an LMUL
it preserves the SEW/LMUL ratio; in particular
`getSameRatioLMUL(32, LMUL_1, 32)` returns LMUL_1. -/
theorem getSameRatioLMUL_preserves_ratio (s e : Nat) (v l : VLMUL)
    (hs : isValidSEW s = true) (he : isValidSEW e = true)
    (h : getSameRatioLMUL s v e = some (some l)) :
    getSEWLMULRatio e l = getSEWLMULRatio s v ∧
    getSameRatioLMUL 32 .LMUL_1 32 = some (some .LMUL_1) := by
  refine ⟨?_, by decide⟩
  rcases isValidSEW_elim s hs with rfl | rfl | rfl | rfl <;>
    rcases isValidSEW_elim e he with rfl | rfl | rfl | rfl <;>
    revert v l h <;> decide

/-- Witness for the amended C7 at (SEW 32, LMUL_1, EEW 16), where the
function returns LMUL_F2 and the ratio 32 is preserved. -/
theorem getSameRatioLMUL_preserves_ratio_witness :
    getSEWLMULRatio 16 .LMUL_F2 = getSEWLMULRatio 32 .LMUL_1 ∧
    getSameRatioLMUL 32 .LMUL_1 32 = some (some .LMUL_1) :=
  getSameRatioLMUL_preserves_ratio 32 16 .LMUL_1 .LMUL_F2 (by decide)
    (by decide) (by decide)

/-- C8: `decodeVLMUL` maps each whole code c in {0,1,2,3} to
`(1 << c, false)`, each fractional code c in {5,6,7} to
`(1 << (8 - c), true)`, and the remaining (reserved) code to the fatal
result; in particular LMUL_2 decodes to (2, false) and LMUL_F4 to
(4, true). -/
theorem decodeVLMUL_mapping :
    (∀ v : VLMUL,
      decodeVLMUL v =
        if vlmulCode v ≤ 3 then some (1 <<< vlmulCode v, false)
        else if 5 ≤ vlmulCode v then some (1 <<< (8 - vlmulCode v), true)
        else none) ∧
    decodeVLMUL .LMUL_2 = some (2, false) ∧
    decodeVLMUL .LMUL_F4 = some (4, true) := by decide

/-- C9: for every valid SEW, every LMUL code and both flags, `printVType`
of the encoded word renders "e<SEW>", then ", m<mult>" or ", mf<denom>"
according to the decoded LMUL, then ", ta"/", tu" and ", ma"/", mu"
according to the flags (and propagates the fatal decode of the reserved
code); in particular (LMUL_F2, 16, true, false) renders
"e16, mf2, ta, mu". -/
theorem printVType_renders_decoded_fields (v : VLMUL) (s : Nat)
    (ta ma : Bool) (hs : isValidSEW s = true) :
    printVType (encodeVTYPE v s ta ma) =
      (decodeVLMUL v).map (fun p =>
        "e" ++ toString s ++ (if p.2 then ", mf" else ", m") ++
        toString p.1 ++ (if ta then ", ta" else ", tu") ++
        (if ma then ", ma" else ", mu")) ∧
    printVType (encodeVTYPE .LMUL_F2 16 true false) = some "e16, mf2, ta, mu" := by
  refine ⟨?_, by decide⟩
  rcases isValidSEW_elim s hs with rfl | rfl | rfl | rfl <;>
    revert v ta ma <;> decide

/-- Witness for C9 at the concrete input (LMUL_4, 8, false, true). -/
theorem printVType_renders_decoded_fields_witness :
    printVType (encodeVTYPE .LMUL_4 8 false true) =
      (decodeVLMUL .LMUL_4).map (fun p =>
        "e" ++ toString 8 ++ (if p.2 then ", mf" else ", m") ++
        toString p.1 ++ (if false then ", ta" else ", tu") ++
        (if true then ", ma" else ", mu")) ∧
    printVType (encodeVTYPE .LMUL_F2 16 true false) = some "e16, mf2, ta, mu" :=
  printVType_renders_decoded_fields .LMUL_4 8 false true (by decide)

/-- C10: for every valid SEW and widen in {1,2,4}, `encodeXSfmmVType`
equals `(log2(sew/8) << 3) | (altFmt << 8) | ((log2(widen)+1) << 9)`, and
all bits outside the SEW field (5:3), bit 8 and bits 10:9 are zero. -/
theorem encodeXSfmmVType_bit_layout (s widen : Nat) (altFmt : Bool)
    (hs : isValidSEW s = true) (hw : widen = 1 ∨ widen = 2 ∨ widen = 4) :
    encodeXSfmmVType s widen altFmt =
      ((log2 (s / 8) <<< 3) ||| ((if altFmt then 1 else 0) <<< 8) |||
        ((log2 widen + 1) <<< 9)) ∧
    encodeXSfmmVType s widen altFmt % 8 = 0 ∧
    (encodeXSfmmVType s widen altFmt).testBit 6 = false ∧
    (encodeXSfmmVType s widen altFmt).testBit 7 = false ∧
    encodeXSfmmVType s widen altFmt < 2048 := by
  rcases isValidSEW_elim s hs with rfl | rfl | rfl | rfl <;>
    rcases hw with rfl | rfl | rfl <;> revert altFmt <;> decide

/-- Witness for C10 at the concrete input (SEW 32, widen 2, altFmt true). -/
theorem encodeXSfmmVType_bit_layout_witness :
    encodeXSfmmVType 32 2 true =
      ((log2 (32 / 8) <<< 3) ||| ((if true then 1 else 0) <<< 8) |||
        ((log2 2 + 1) <<< 9)) ∧
    encodeXSfmmVType 32 2 true % 8 = 0 ∧
    (encodeXSfmmVType 32 2 true).testBit 6 = false ∧
    (encodeXSfmmVType 32 2 true).testBit 7 = false ∧
    encodeXSfmmVType 32 2 true < 2048 :=
  encodeXSfmmVType_bit_layout 32 2 true (by decide) (Or.inr (Or.inl rfl))
